import Mathlib

/-!
Shallow embedding of the DNS benchmark engine
(`src/dns_bench/engine.py`): the measurement record, the
constructor-time validation, the job scheduler, the retry/backoff
controller and the backoff computation, together with proofs of the
spec's testable properties.

Modelling conventions:
* Python floats are modelled as rationals (`ℚ`).
* `datetime.now(...)` timestamps are modelled as abstract rational
  values supplied per attempt by the environment.
* A provider's behaviour on a job is a function from the 0-based
  attempt index to the outcome of that attempt (what `provider.query`
  does inside `asyncio.timeout`), together with the wall-clock data
  observed at that attempt.
* `None` becomes `Option.none`; exceptions escaping a constructor
  become `Except.error`.
-/

/-- Outcome of one attempt of `provider.query(domain, ...)` as seen by the
`try`/`except` dispatch in `BenchmarkEngine._execute_with_retries`:
a normal return with addresses, a `ProviderRateLimitError`, an
`asyncio.TimeoutError`, a `ProviderQueryError`/`DNSBenchError` (carrying
its class name), or any other exception (defensive catch-all). -/
inductive AttemptResult where
  | success (addresses : List String)
  | rateLimit (msg : String)
  | timeout
  | queryError (className : String) (msg : String)
  | unexpected (className : String) (msg : String)
  deriving DecidableEq, Repr

/-- Environment data observed during one attempt: the outcome of the
query, the elapsed `(time.perf_counter() - start) * 1000` measured when
the outcome is classified, the `datetime.now(timezone.utc)` captured at
the top of the loop body (`started_at`), and the one captured when a
terminal measurement is built (`finished_at`). -/
structure Attempt where
  result : AttemptResult
  durationMs : ℚ
  startTs : ℚ
  finishTs : ℚ
  deriving DecidableEq, Repr

/-- Dataclass `QueryMeasurement` of `engine.py`. -/
structure QueryMeasurement where
  provider : String
  domain : String
  iteration : Nat
  attempts : Nat
  retry_count : Nat
  success : Bool
  started_at : ℚ
  finished_at : ℚ
  latency_ms : Option ℚ
  error_type : Option String
  error_message : Option String
  addresses : List String
  deriving DecidableEq, Repr

/-- The loop body of `BenchmarkEngine._execute_with_retries`.
Parameters `attempts`, `retries`, `addresses` are the values of the
local variables on entry to an iteration of `while True`; `behavior n`
is what the environment does at the 0-based attempt `n` (the attempt
whose `attempts` counter is `n + 1`). `maxRetries` is the engine's
(already clamped) `self.max_retries`. -/
def execAttempts (maxRetries : Nat) (providerName domain : String)
    (iteration : Nat) (behavior : Nat → Attempt)
    (attempts retries : Nat) (addresses : List String) : QueryMeasurement :=
  match (behavior attempts).result with
  | .success addrs =>
      { provider := providerName, domain := domain, iteration := iteration
        attempts := attempts + 1, retry_count := retries, success := true
        started_at := (behavior attempts).startTs
        finished_at := (behavior attempts).finishTs
        latency_ms := some (behavior attempts).durationMs
        error_type := none, error_message := none, addresses := addrs }
  | .rateLimit msg =>
      if retries ≥ maxRetries then
        { provider := providerName, domain := domain, iteration := iteration
          attempts := attempts + 1, retry_count := retries, success := false
          started_at := (behavior attempts).startTs
          finished_at := (behavior attempts).finishTs
          latency_ms := some (behavior attempts).durationMs
          error_type := some "rate_limit", error_message := some msg
          addresses := addresses }
      else
        execAttempts maxRetries providerName domain iteration behavior
          (attempts + 1) (retries + 1) addresses
  | .timeout =>
      { provider := providerName, domain := domain, iteration := iteration
        attempts := attempts + 1, retry_count := retries, success := false
        started_at := (behavior attempts).startTs
        finished_at := (behavior attempts).finishTs
        latency_ms := some (behavior attempts).durationMs
        error_type := some "timeout"
        error_message :=
          some ("Timed out querying " ++ domain ++ " via " ++ providerName)
        addresses := addresses }
  | .queryError className msg =>
      if retries ≥ maxRetries then
        { provider := providerName, domain := domain, iteration := iteration
          attempts := attempts + 1, retry_count := retries, success := false
          started_at := (behavior attempts).startTs
          finished_at := (behavior attempts).finishTs
          latency_ms := some (behavior attempts).durationMs
          error_type := some className, error_message := some msg
          addresses := addresses }
      else
        execAttempts maxRetries providerName domain iteration behavior
          (attempts + 1) (retries + 1) addresses
  | .unexpected className msg =>
      { provider := providerName, domain := domain, iteration := iteration
        attempts := attempts + 1, retry_count := retries, success := false
        started_at := (behavior attempts).startTs
        finished_at := (behavior attempts).finishTs
        latency_ms := some (behavior attempts).durationMs
        error_type := some className, error_message := some msg
        addresses := addresses }
termination_by maxRetries - retries
decreasing_by all_goals omega

/-- Entry point `BenchmarkEngine._execute_with_retries`: the retry loop entered with
`attempts = 0`, `retries = 0`, `addresses = []`. -/
def executeWithRetries (maxRetries : Nat) (providerName domain : String)
    (iteration : Nat) (behavior : Nat → Attempt) : QueryMeasurement :=
  execAttempts maxRetries providerName domain iteration behavior 0 0 []

/-- The raw keyword arguments of `BenchmarkEngine.__init__`, before any
clamping. Providers are identified by name; their query behaviour is
supplied separately to the execution functions. `concurrency` and
`max_retries` are Python ints, so `Int` here. -/
structure EngineConfig where
  providers : List String
  domains : List String
  iterations : Nat
  concurrency : Int
  query_timeout : ℚ
  max_retries : Int
  backoff_base : ℚ
  backoff_max : ℚ
  backoff_jitter : ℚ
  deriving DecidableEq, Repr

/-- The attribute state a constructed `BenchmarkEngine` holds after
`__init__` ran its clamping (`max(1, concurrency)`, `max(0, max_retries)`,
`max(0.0, backoff_base)`, `max(self.backoff_base, backoff_max)`,
`max(0.0, backoff_jitter)`). -/
structure Engine where
  providers : List String
  domains : List String
  iterations : Nat
  concurrency : Nat
  query_timeout : ℚ
  max_retries : Nat
  backoff_base : ℚ
  backoff_max : ℚ
  backoff_jitter : ℚ
  deriving DecidableEq, Repr

/-- Constructor `BenchmarkEngine.__init__`: raises `ValueError` (modelled as
`Except.error`) when the provider or domain list is empty, otherwise
stores the clamped configuration. `max 1 concurrency` and
`max 0 max_retries` on `Int` land in `Nat` via `Int.toNat` (for
`concurrency ≥ 1` this is exactly `max(1, concurrency)`). -/
def BenchmarkEngine.init (cfg : EngineConfig) : Except String Engine :=
  if cfg.providers.isEmpty then
    .error "At least one provider is required"
  else if cfg.domains.isEmpty then
    .error "At least one domain is required"
  else
    .ok { providers := cfg.providers
          domains := cfg.domains
          iterations := cfg.iterations
          concurrency := (max 1 cfg.concurrency).toNat
          query_timeout := cfg.query_timeout
          max_retries := (max 0 cfg.max_retries).toNat
          backoff_base := max 0 cfg.backoff_base
          backoff_max := max (max 0 cfg.backoff_base) cfg.backoff_max
          backoff_jitter := max 0 cfg.backoff_jitter }

/-- Method `BenchmarkEngine._compute_backoff` on the engine's (clamped) fields.
`draw` models the value the shared rng returns for
`self._rng.uniform(0, self.backoff_jitter)`; it is consumed only when
`self.backoff_jitter` is truthy (nonzero). -/
def computeBackoff (backoff_base backoff_max backoff_jitter : ℚ)
    (retries : Nat) (draw : ℚ) : ℚ :=
  let exponential := backoff_base * 2 ^ retries
  let sleep_for := min backoff_max exponential
  if backoff_jitter ≠ 0 then sleep_for + draw else sleep_for

/-- A job as built by `BenchmarkEngine._build_jobs`:
`(iteration, provider, domain)` with the provider given by name. -/
abbrev Job := Nat × String × String

/-- Method `BenchmarkEngine._build_jobs`. The two `self._rng.shuffle` calls are
modelled by environment-supplied functions `shuffleP`/`shuffleD` giving,
for each 1-based iteration, the shuffled copy of the provider and domain
lists; faithfulness to `random.shuffle` is the hypothesis (used in the
theorems) that each returns a permutation of its argument. -/
def buildJobs (iterations : Nat) (providers domains : List String)
    (shuffleP shuffleD : Nat → List String → List String) : List Job :=
  (List.range iterations).flatMap fun k =>
    (shuffleP (k + 1) providers).flatMap fun provider =>
      (shuffleD (k + 1) domains).map fun domain =>
        (k + 1, provider, domain)

/-- The multiset of measurements `BenchmarkEngine.run` returns: one
`_execute_with_retries` result per job built by `_build_jobs`, listed
here in job order. (`run` itself appends them in `asyncio.as_completed`
completion order, a permutation of this list; theorems about `run`
quantify over that permutation.) `behavior j n` is the environment's
outcome for attempt `n` of job `j`. -/
def runInOrder (eng : Engine)
    (shuffleP shuffleD : Nat → List String → List String)
    (behavior : Job → Nat → Attempt) : List QueryMeasurement :=
  (buildJobs eng.iterations eng.providers eng.domains shuffleP shuffleD).map
    fun j => executeWithRetries eng.max_retries j.2.1 j.2.2 j.1 (behavior j)

/-! ## Shared sample inputs used by the witnesses -/

/-- Identity shuffle: a valid (trivial) permutation of each list. -/
def idShuffle : Nat → List String → List String := fun _ l => l

/-- A sample configuration: one provider, one domain, one iteration. -/
def sampleCfg : EngineConfig :=
  { providers := ["cloudflare"], domains := ["example.com"]
    iterations := 1, concurrency := 4, query_timeout := 5
    max_retries := 2, backoff_base := 1/10, backoff_max := 2
    backoff_jitter := 0 }

/-- The engine that `BenchmarkEngine.__init__` builds from `sampleCfg`. -/
def sampleEng : Engine :=
  { providers := ["cloudflare"], domains := ["example.com"]
    iterations := 1, concurrency := 4, query_timeout := 5
    max_retries := 2, backoff_base := 1/10, backoff_max := 2
    backoff_jitter := 0 }

/-- A provider behaviour that always succeeds immediately. -/
def alwaysSucceeds : Job → Nat → Attempt :=
  fun _ _ => ⟨.success ["198.51.100.7"], 10, 0, 1⟩

/-- A per-job behaviour that times out on every attempt. -/
def timeoutFirst : Nat → Attempt := fun _ => ⟨.timeout, 5, 0, 1⟩

/-- A per-job behaviour that is rate-limited on every attempt. -/
def alwaysRateLimited : Nat → Attempt :=
  fun _ => ⟨.rateLimit "throttled", 5, 0, 1⟩

/-- A provider that is rate-limited on the first attempt and times out
on every later one. -/
def rateLimitThenTimeout : Nat → Attempt := fun n =>
  if n = 0 then ⟨.rateLimit "throttled", 5, 0, 1⟩ else ⟨.timeout, 7, 2, 3⟩

/-- A provider that is rate-limited on the first attempt (started at
timestamp 10) and succeeds on the second (started at timestamp 20). -/
def rateLimitThenSuccess : Nat → Attempt := fun n =>
  if n = 0 then ⟨.rateLimit "throttled", 5, 10, 11⟩
  else ⟨.success ["198.51.100.7"], 6, 20, 21⟩

/-- An invalid configuration: no providers. -/
def noProvidersCfg : EngineConfig :=
  { providers := [], domains := ["example.com"], iterations := 1
    concurrency := 1, query_timeout := 5, max_retries := 0
    backoff_base := 0, backoff_max := 0, backoff_jitter := 0 }

instance : DecidableEq (Except String Engine) := fun a b =>
  match a, b with
  | .ok x, .ok y =>
      if h : x = y then .isTrue (by rw [h])
      else .isFalse (by intro hc; cases hc; exact h rfl)
  | .error x, .error y =>
      if h : x = y then .isTrue (by rw [h])
      else .isFalse (by intro hc; cases hc; exact h rfl)
  | .ok _, .error _ => .isFalse (by intro hc; cases hc)
  | .error _, .ok _ => .isFalse (by intro hc; cases hc)

/-! ## Loop invariants of the retry controller -/

/-- Master characterisation of the retry loop, proved by induction on
the remaining retry budget `M - r` (bounded by the fuel `n`): entering
an iteration of `while True` with counters `a`/`r` (and `r ≤ M`), the
loop terminates at some attempt index `k ≥ a`; the measurement's
counters, timestamps and latency all come from that terminal attempt,
`retry_count` grew in lockstep with the attempt counter and respects
the budget, and the success/failure fields are consistent with the
terminal attempt's outcome (addresses only ever populated on success,
failure carrying the addresses variable as it entered the loop). -/
theorem execAttempts_spec (M : Nat) (p d : String) (i : Nat)
    (b : Nat → Attempt) :
    ∀ (n a r : Nat) (addrs : List String), M - r ≤ n → r ≤ M →
    ∃ k, a ≤ k ∧
      (execAttempts M p d i b a r addrs).provider = p ∧
      (execAttempts M p d i b a r addrs).domain = d ∧
      (execAttempts M p d i b a r addrs).iteration = i ∧
      (execAttempts M p d i b a r addrs).attempts = k + 1 ∧
      (execAttempts M p d i b a r addrs).retry_count = r + (k - a) ∧
      (execAttempts M p d i b a r addrs).retry_count ≤ M ∧
      (execAttempts M p d i b a r addrs).started_at = (b k).startTs ∧
      (execAttempts M p d i b a r addrs).finished_at = (b k).finishTs ∧
      (execAttempts M p d i b a r addrs).latency_ms
        = some (b k).durationMs ∧
      (((execAttempts M p d i b a r addrs).success = true ∧
          (execAttempts M p d i b a r addrs).error_type = none ∧
          (execAttempts M p d i b a r addrs).error_message = none ∧
          ∃ as, (b k).result = AttemptResult.success as ∧
            (execAttempts M p d i b a r addrs).addresses = as) ∨
        ((execAttempts M p d i b a r addrs).success = false ∧
          (∃ s, (execAttempts M p d i b a r addrs).error_type = some s) ∧
          (∃ s, (execAttempts M p d i b a r addrs).error_message = some s) ∧
          (execAttempts M p d i b a r addrs).addresses = addrs)) ∧
      (∀ j, a ≤ j → j < k →
        (∃ m, (b j).result = AttemptResult.rateLimit m) ∨
          ∃ c m, (b j).result = AttemptResult.queryError c m) := by
  intro n
  induction n with
  | zero =>
    intro a r addrs hn hr
    have hrM : r = M := by omega
    rw [execAttempts]
    split
    next as heq =>
      exact ⟨a, le_rfl, rfl, rfl, rfl, rfl, by simp, hr, rfl, rfl, rfl,
        Or.inl ⟨rfl, rfl, rfl, as, heq, rfl⟩,
        by intro j hj1 hj2; omega⟩
    next msg heq =>
      rw [if_pos (by omega)]
      exact ⟨a, le_rfl, rfl, rfl, rfl, rfl, by simp, hr, rfl, rfl, rfl,
        Or.inr ⟨rfl, ⟨_, rfl⟩, ⟨_, rfl⟩, rfl⟩,
        by intro j hj1 hj2; omega⟩
    next heq =>
      exact ⟨a, le_rfl, rfl, rfl, rfl, rfl, by simp, hr, rfl, rfl, rfl,
        Or.inr ⟨rfl, ⟨_, rfl⟩, ⟨_, rfl⟩, rfl⟩,
        by intro j hj1 hj2; omega⟩
    next c msg heq =>
      rw [if_pos (by omega)]
      exact ⟨a, le_rfl, rfl, rfl, rfl, rfl, by simp, hr, rfl, rfl, rfl,
        Or.inr ⟨rfl, ⟨_, rfl⟩, ⟨_, rfl⟩, rfl⟩,
        by intro j hj1 hj2; omega⟩
    next c msg heq =>
      exact ⟨a, le_rfl, rfl, rfl, rfl, rfl, by simp, hr, rfl, rfl, rfl,
        Or.inr ⟨rfl, ⟨_, rfl⟩, ⟨_, rfl⟩, rfl⟩,
        by intro j hj1 hj2; omega⟩
  | succ n ih =>
    intro a r addrs hn hr
    rw [execAttempts]
    split
    next as heq =>
      exact ⟨a, le_rfl, rfl, rfl, rfl, rfl, by simp, hr, rfl, rfl, rfl,
        Or.inl ⟨rfl, rfl, rfl, as, heq, rfl⟩,
        by intro j hj1 hj2; omega⟩
    next msg heq =>
      by_cases hge : r ≥ M
      · rw [if_pos hge]
        exact ⟨a, le_rfl, rfl, rfl, rfl, rfl, by simp, hr, rfl, rfl, rfl,
          Or.inr ⟨rfl, ⟨_, rfl⟩, ⟨_, rfl⟩, rfl⟩,
        by intro j hj1 hj2; omega⟩
      · rw [if_neg hge]
        obtain ⟨k, hk, h1, h2, h3, h4, h5, h6, h7, h8, h9, h10, h11⟩ :=
          ih (a + 1) (r + 1) addrs (by omega) (by omega)
        refine ⟨k, by omega, h1, h2, h3, h4, by omega, h6, h7, h8, h9, h10,
          ?_⟩
        intro j hj1 hj2
        by_cases hja : j = a
        · subst hja; exact Or.inl ⟨msg, heq⟩
        · exact h11 j (by omega) hj2
    next heq =>
      exact ⟨a, le_rfl, rfl, rfl, rfl, rfl, by simp, hr, rfl, rfl, rfl,
        Or.inr ⟨rfl, ⟨_, rfl⟩, ⟨_, rfl⟩, rfl⟩,
        by intro j hj1 hj2; omega⟩
    next c msg heq =>
      by_cases hge : r ≥ M
      · rw [if_pos hge]
        exact ⟨a, le_rfl, rfl, rfl, rfl, rfl, by simp, hr, rfl, rfl, rfl,
          Or.inr ⟨rfl, ⟨_, rfl⟩, ⟨_, rfl⟩, rfl⟩,
        by intro j hj1 hj2; omega⟩
      · rw [if_neg hge]
        obtain ⟨k, hk, h1, h2, h3, h4, h5, h6, h7, h8, h9, h10, h11⟩ :=
          ih (a + 1) (r + 1) addrs (by omega) (by omega)
        refine ⟨k, by omega, h1, h2, h3, h4, by omega, h6, h7, h8, h9, h10,
          ?_⟩
        intro j hj1 hj2
        by_cases hja : j = a
        · subst hja; exact Or.inr ⟨c, msg, heq⟩
        · exact h11 j (by omega) hj2
    next c msg heq =>
      exact ⟨a, le_rfl, rfl, rfl, rfl, rfl, by simp, hr, rfl, rfl, rfl,
        Or.inr ⟨rfl, ⟨_, rfl⟩, ⟨_, rfl⟩, rfl⟩,
        by intro j hj1 hj2; omega⟩

/-- Specialisation of the master lemma: the entry point starts at
`attempts = 0`, `retries = 0`, `addresses = []`. -/
theorem executeWithRetries_spec (M : Nat) (p d : String) (i : Nat)
    (b : Nat → Attempt) :
    ∃ k,
      (executeWithRetries M p d i b).provider = p ∧
      (executeWithRetries M p d i b).domain = d ∧
      (executeWithRetries M p d i b).iteration = i ∧
      (executeWithRetries M p d i b).attempts = k + 1 ∧
      (executeWithRetries M p d i b).retry_count = k ∧
      (executeWithRetries M p d i b).retry_count ≤ M ∧
      (executeWithRetries M p d i b).started_at = (b k).startTs ∧
      (executeWithRetries M p d i b).finished_at = (b k).finishTs ∧
      (executeWithRetries M p d i b).latency_ms
        = some (b k).durationMs ∧
      (((executeWithRetries M p d i b).success = true ∧
          (executeWithRetries M p d i b).error_type = none ∧
          (executeWithRetries M p d i b).error_message = none ∧
          ∃ as, (b k).result = AttemptResult.success as ∧
            (executeWithRetries M p d i b).addresses = as) ∨
        ((executeWithRetries M p d i b).success = false ∧
          (∃ s, (executeWithRetries M p d i b).error_type = some s) ∧
          (∃ s, (executeWithRetries M p d i b).error_message = some s) ∧
          (executeWithRetries M p d i b).addresses = [])) ∧
      (∀ j, j < k →
        (∃ m, (b j).result = AttemptResult.rateLimit m) ∨
          ∃ c m, (b j).result = AttemptResult.queryError c m) := by
  unfold executeWithRetries
  obtain ⟨k, hk, h1, h2, h3, h4, h5, h6, h7, h8, h9, h10, h11⟩ :=
    execAttempts_spec M p d i b M 0 0 [] (by omega) (by omega)
  exact ⟨k, h1, h2, h3, h4, by omega, h6, h7, h8, h9, h10,
    fun j hj => h11 j (by omega) hj⟩

/-- When every attempt raises `ProviderRateLimitError`, the loop retries
until the budget is exhausted: entered with counters `a`/`r` (and
`r ≤ M`), it returns a failed `rate_limit` measurement after
`M - r` further retries, with `attempts = a + (M - r) + 1` and
`retry_count = M`. -/
theorem execAttempts_rateLimit_all (M : Nat) (p d : String) (i : Nat)
    (b : Nat → Attempt)
    (hb : ∀ j, ∃ m, (b j).result = AttemptResult.rateLimit m) :
    ∀ (n a r : Nat) (addrs : List String), M - r ≤ n → r ≤ M →
    (execAttempts M p d i b a r addrs).success = false ∧
      (execAttempts M p d i b a r addrs).error_type = some "rate_limit" ∧
      (execAttempts M p d i b a r addrs).attempts = a + (M - r) + 1 ∧
      (execAttempts M p d i b a r addrs).retry_count = M ∧
      (execAttempts M p d i b a r addrs).addresses = addrs := by
  intro n
  induction n with
  | zero =>
    intro a r addrs hn hr
    obtain ⟨m, hm⟩ := hb a
    rw [execAttempts]
    split
    next as heq => rw [hm] at heq; cases heq
    next msg heq =>
      rw [if_pos (by omega)]
      exact ⟨rfl, rfl, show a + 1 = a + (M - r) + 1 by omega,
        show r = M by omega, rfl⟩
    next heq => rw [hm] at heq; cases heq
    next c msg heq => rw [hm] at heq; cases heq
    next c msg heq => rw [hm] at heq; cases heq
  | succ n ih =>
    intro a r addrs hn hr
    obtain ⟨m, hm⟩ := hb a
    rw [execAttempts]
    split
    next as heq => rw [hm] at heq; cases heq
    next msg heq =>
      by_cases hge : r ≥ M
      · rw [if_pos hge]
        exact ⟨rfl, rfl, show a + 1 = a + (M - r) + 1 by omega,
          show r = M by omega, rfl⟩
      · rw [if_neg hge]
        obtain ⟨h1, h2, h3, h4, h5⟩ :=
          ih (a + 1) (r + 1) addrs (by omega) (by omega)
        exact ⟨h1, h2, by omega, h4, h5⟩
    next heq => rw [hm] at heq; cases heq
    next c msg heq => rw [hm] at heq; cases heq
    next c msg heq => rw [hm] at heq; cases heq

/-! ## The job scheduler -/

/-- Scheduler count: `_build_jobs` produces exactly
`iterations * len(providers) * len(domains)` jobs, as long as the two
shuffles permute (in particular preserve the length of) the lists they
are given. -/
theorem buildJobs_length (iterations : Nat) (providers domains : List String)
    (shuffleP shuffleD : Nat → List String → List String)
    (hP : ∀ i, (shuffleP i providers).Perm providers)
    (hD : ∀ i, (shuffleD i domains).Perm domains) :
    (buildJobs iterations providers domains shuffleP shuffleD).length =
      iterations * providers.length * domains.length := by
  rw [buildJobs, List.length_flatMap]
  have hone : ∀ k : Nat,
      ((shuffleP (k + 1) providers).flatMap fun provider =>
        (shuffleD (k + 1) domains).map fun domain =>
          (k + 1, provider, domain)).length =
        providers.length * domains.length := by
    intro k
    rw [List.length_flatMap]
    have h2 :
        List.map (List.length ∘ fun provider =>
            (shuffleD (k + 1) domains).map fun domain =>
              (k + 1, provider, domain))
          (shuffleP (k + 1) providers) =
        List.map (fun _ => domains.length) (shuffleP (k + 1) providers) := by
      apply List.map_congr_left
      intro x hx
      simp [Function.comp, (hD (k + 1)).length_eq]
    rw [h2, List.map_const', List.sum_const_nat,
      (hP (k + 1)).length_eq, Nat.mul_comm]
  have h3 :
      List.map (List.length ∘ fun k =>
          (shuffleP (k + 1) providers).flatMap fun provider =>
            (shuffleD (k + 1) domains).map fun domain =>
              (k + 1, provider, domain))
        (List.range iterations) =
      List.map (fun _ => providers.length * domains.length)
        (List.range iterations) := by
    apply List.map_congr_left
    intro k hk
    simpa [Function.comp] using hone k
  rw [h3, List.map_const', List.sum_const_nat,
    List.length_range, Nat.mul_assoc]

/-- Inversion of a successful construction: the stored attributes are
the clamped configuration values. -/
theorem init_ok_fields (cfg : EngineConfig) (eng : Engine)
    (h : BenchmarkEngine.init cfg = .ok eng) :
    eng.providers = cfg.providers ∧ eng.domains = cfg.domains ∧
      eng.iterations = cfg.iterations ∧
      eng.concurrency = (max 1 cfg.concurrency).toNat ∧
      eng.max_retries = (max 0 cfg.max_retries).toNat ∧
      eng.backoff_base = max 0 cfg.backoff_base ∧
      eng.backoff_max = max (max 0 cfg.backoff_base) cfg.backoff_max ∧
      eng.backoff_jitter = max 0 cfg.backoff_jitter := by
  unfold BenchmarkEngine.init at h
  split_ifs at h
  cases h
  exact ⟨rfl, rfl, rfl, rfl, rfl, rfl, rfl, rfl⟩

/-! ## Claims -/

/-- C1: every run of `BenchmarkEngine.run()` with providers `P`, domains
`D` and iteration count `N` returns exactly `N * |P| * |D|`
measurements — one per generated `(iteration, provider, domain)` job,
none dropped or duplicated — for any completion order (a permutation of
the per-job results) and any shuffles that permute the lists. -/
theorem C1_run_measurement_count (eng : Engine)
    (shuffleP shuffleD : Nat → List String → List String)
    (behavior : Job → Nat → Attempt)
    (hP : ∀ i, (shuffleP i eng.providers).Perm eng.providers)
    (hD : ∀ i, (shuffleD i eng.domains).Perm eng.domains)
    (ms : List QueryMeasurement)
    (hms : ms.Perm (runInOrder eng shuffleP shuffleD behavior)) :
    ms.length = eng.iterations * eng.providers.length * eng.domains.length := by
  rw [hms.length_eq, runInOrder, List.length_map,
    buildJobs_length eng.iterations eng.providers eng.domains
      shuffleP shuffleD hP hD]

/-- C1 witness: the sample engine (1 provider, 1 domain, 1 iteration)
yields exactly `1 * 1 * 1` measurements. -/
theorem C1_run_measurement_count_witness :
    (runInOrder sampleEng idShuffle idShuffle alwaysSucceeds).length =
      1 * 1 * 1 :=
  C1_run_measurement_count sampleEng idShuffle idShuffle alwaysSucceeds
    (fun _ => List.Perm.refl _) (fun _ => List.Perm.refl _)
    (runInOrder sampleEng idShuffle idShuffle alwaysSucceeds)
    (List.Perm.refl _)

/-- C4: for every measurement the engine returns,
`attempts == retry_count + 1` and `retry_count` never exceeds the
engine's retry budget; for a non-negative configured `max_retries`
(the case the spec's configuration contract allows) it also never
exceeds the configured value. -/
theorem C4_attempts_eq_retry_succ (cfg : EngineConfig) (eng : Engine)
    (hcfg : BenchmarkEngine.init cfg = .ok eng)
    (p d : String) (i : Nat) (b : Nat → Attempt) :
    (executeWithRetries eng.max_retries p d i b).attempts =
        (executeWithRetries eng.max_retries p d i b).retry_count + 1 ∧
      (executeWithRetries eng.max_retries p d i b).retry_count ≤
        eng.max_retries ∧
      (0 ≤ cfg.max_retries →
        ((executeWithRetries eng.max_retries p d i b).retry_count : Int) ≤
          cfg.max_retries) := by
  obtain ⟨k, _, _, _, h4, h5, h6, _⟩ :=
    executeWithRetries_spec eng.max_retries p d i b
  obtain ⟨_, _, _, _, hM, _⟩ := init_ok_fields cfg eng hcfg
  refine ⟨by omega, h6, fun hc => ?_⟩
  have hbound : (eng.max_retries : Int) = max 0 cfg.max_retries := by
    rw [hM]; omega
  omega

/-- C4 witness: the counters at a concrete always-rate-limited job under
the sample configuration. -/
theorem C4_attempts_eq_retry_succ_witness :
    (executeWithRetries sampleEng.max_retries "p" "d" 1
          alwaysRateLimited).attempts =
        (executeWithRetries sampleEng.max_retries "p" "d" 1
          alwaysRateLimited).retry_count + 1 ∧
      (executeWithRetries sampleEng.max_retries "p" "d" 1
          alwaysRateLimited).retry_count ≤ sampleEng.max_retries ∧
      (0 ≤ sampleCfg.max_retries →
        ((executeWithRetries sampleEng.max_retries "p" "d" 1
            alwaysRateLimited).retry_count : Int) ≤ sampleCfg.max_retries) :=
  C4_attempts_eq_retry_succ sampleCfg sampleEng
    (by simp [BenchmarkEngine.init, sampleCfg, sampleEng]; norm_num)
    "p" "d" 1 alwaysRateLimited

/-- C5: field invariant — `success == true` forces `error_type` and `error_message` to be
null, and `success == false` forces both to be non-null, on every
measurement the retry controller can produce. -/
theorem C5_success_iff_no_error (M : Nat) (p d : String) (i : Nat)
    (b : Nat → Attempt) :
    ((executeWithRetries M p d i b).success = true →
        (executeWithRetries M p d i b).error_type = none ∧
          (executeWithRetries M p d i b).error_message = none) ∧
      ((executeWithRetries M p d i b).success = false →
        (executeWithRetries M p d i b).error_type.isSome = true ∧
          (executeWithRetries M p d i b).error_message.isSome = true) := by
  obtain ⟨k, _, _, _, _, _, _, _, _, _, h10, _⟩ :=
    executeWithRetries_spec M p d i b
  rcases h10 with ⟨hs, ht, hm, _⟩ | ⟨hs, ⟨t, ht⟩, ⟨m, hm⟩, _⟩
  · refine ⟨fun _ => ⟨ht, hm⟩, fun hfalse => ?_⟩
    rw [hs] at hfalse; cases hfalse
  · refine ⟨fun htrue => ?_, fun _ => by rw [ht, hm]; exact ⟨rfl, rfl⟩⟩
    rw [hs] at htrue; cases htrue

/-- C5 witness: a first-attempt timeout yields a failed measurement with
both error fields populated. -/
theorem C5_success_iff_no_error_witness :
    (executeWithRetries 2 "p" "d" 1 timeoutFirst).error_type.isSome
        = true ∧
      (executeWithRetries 2 "p" "d" 1 timeoutFirst).error_message.isSome
        = true :=
  (C5_success_iff_no_error 2 "p" "d" 1 timeoutFirst).2
    (by simp [executeWithRetries, execAttempts, timeoutFirst])

/-- C9: with the same configuration, the same engine-owned random
source (shuffles and per-job behaviour) and deterministic providers,
any two runs return measurement lists that are equal as multisets —
completion order is the only degree of freedom. -/
theorem C9_deterministic_up_to_order (eng : Engine)
    (shuffleP shuffleD : Nat → List String → List String)
    (behavior : Job → Nat → Attempt)
    (ms1 ms2 : List QueryMeasurement)
    (h1 : ms1.Perm (runInOrder eng shuffleP shuffleD behavior))
    (h2 : ms2.Perm (runInOrder eng shuffleP shuffleD behavior)) :
    (ms1 : Multiset QueryMeasurement) = (ms2 : Multiset QueryMeasurement) :=
  Multiset.coe_eq_coe.mpr (h1.trans h2.symm)

/-- C9 witness: two (trivially permuted) runs of the sample
configuration agree as multisets. -/
theorem C9_deterministic_up_to_order_witness :
    ((runInOrder sampleEng idShuffle idShuffle alwaysSucceeds :
        List QueryMeasurement) : Multiset QueryMeasurement) =
      ((runInOrder sampleEng idShuffle idShuffle alwaysSucceeds :
        List QueryMeasurement) : Multiset QueryMeasurement) :=
  C9_deterministic_up_to_order sampleEng idShuffle idShuffle alwaysSucceeds
    _ _ (List.Perm.refl _) (List.Perm.refl _)

/-- C10: a failed measurement always carries an empty `addresses` list —
addresses are only assigned on the success path, and a failing terminal
outcome keeps the initial empty list from the start of the job. -/
theorem C10_failed_has_no_addresses (M : Nat) (p d : String) (i : Nat)
    (b : Nat → Attempt)
    (h : (executeWithRetries M p d i b).success = false) :
    (executeWithRetries M p d i b).addresses = [] := by
  obtain ⟨k, _, _, _, _, _, _, _, _, _, h10, _⟩ :=
    executeWithRetries_spec M p d i b
  rcases h10 with ⟨hs, _⟩ | ⟨_, _, _, ha⟩
  · rw [h] at hs; cases hs
  · exact ha

/-- C10 witness: the measurement of an always-timing-out job has no
addresses. -/
theorem C10_failed_has_no_addresses_witness :
    (executeWithRetries 2 "p" "d" 1 timeoutFirst).addresses = [] :=
  C10_failed_has_no_addresses 2 "p" "d" 1 timeoutFirst
    (by simp [executeWithRetries, execAttempts, timeoutFirst])

/-- C2 counterexample: with budget `max_retries = 2`, a job whose first attempt
is rate-limited and whose second attempt times out yields a terminal
measurement with `error_type = "timeout"` but `retry_count = 1 ≠ 0` —
the claim's "retry_count == 0 regardless of earlier attempts" is false
on the code. -/
theorem C2_counterexample :
    (executeWithRetries 2 "p" "d" 1 rateLimitThenTimeout).error_type
        = some "timeout" ∧
      (executeWithRetries 2 "p" "d" 1 rateLimitThenTimeout).retry_count
        = 1 ∧
      (executeWithRetries 2 "p" "d" 1 rateLimitThenTimeout).retry_count
        ≠ 0 := by
  refine ⟨?_, ?_, ?_⟩ <;>
    simp [executeWithRetries, execAttempts, rateLimitThenTimeout]

/-- C2 amended: a timeout terminates the job at the attempt where it
occurs and is itself never retried — every retry counted in
`retry_count` was consumed by an earlier rate-limited or classified
query failure — and in particular a first-attempt timeout carries
`retry_count = 0`, whatever the budget. -/
theorem C2_timeout_never_retried (M : Nat) (p d : String) (i : Nat)
    (b : Nat → Attempt) :
    (∃ k, (executeWithRetries M p d i b).attempts = k + 1 ∧
        (executeWithRetries M p d i b).retry_count = k ∧
        ∀ j, j < k →
          (∃ m, (b j).result = AttemptResult.rateLimit m) ∨
            ∃ c m, (b j).result = AttemptResult.queryError c m) ∧
      ((b 0).result = AttemptResult.timeout →
        (executeWithRetries M p d i b).retry_count = 0 ∧
          (executeWithRetries M p d i b).attempts = 1 ∧
          (executeWithRetries M p d i b).error_type = some "timeout" ∧
          (executeWithRetries M p d i b).success = false) := by
  constructor
  · obtain ⟨k, _, _, _, h4, h5, _, _, _, _, _, h11⟩ :=
      executeWithRetries_spec M p d i b
    exact ⟨k, h4, h5, h11⟩
  · intro h0
    unfold executeWithRetries
    rw [execAttempts]
    split
    next as heq => rw [h0] at heq; cases heq
    next msg heq => rw [h0] at heq; cases heq
    next heq => exact ⟨rfl, rfl, rfl, rfl⟩
    next c msg heq => rw [h0] at heq; cases heq
    next c msg heq => rw [h0] at heq; cases heq

/-- C2 amended witness: a job timing out on its very first attempt with
budget 3 has `retry_count = 0`, one attempt, and a timeout tag. -/
theorem C2_timeout_never_retried_witness :
    (executeWithRetries 3 "p" "d" 1 timeoutFirst).retry_count = 0 ∧
      (executeWithRetries 3 "p" "d" 1 timeoutFirst).attempts = 1 ∧
      (executeWithRetries 3 "p" "d" 1 timeoutFirst).error_type
        = some "timeout" ∧
      (executeWithRetries 3 "p" "d" 1 timeoutFirst).success = false :=
  (C2_timeout_never_retried 3 "p" "d" 1 timeoutFirst).2 rfl

/-- C3 counterexample: the field `started_at` is re-captured at the top of every
loop iteration (`engine.py` line 125), so after a retried first attempt
the returned measurement's `started_at` is the terminal attempt's
timestamp (20), not the first attempt's (10) — the claim's
"`started_at` is the timestamp captured at the job's very first
attempt" is false on the code. -/
theorem C3_counterexample :
    (executeWithRetries 2 "p" "d" 1 rateLimitThenSuccess).started_at = 20 ∧
      (rateLimitThenSuccess 0).startTs = 10 ∧
      (executeWithRetries 2 "p" "d" 1 rateLimitThenSuccess).started_at ≠
        (rateLimitThenSuccess 0).startTs := by
  refine ⟨?_, rfl, ?_⟩ <;>
    simp [executeWithRetries, execAttempts, rateLimitThenSuccess]

/-- C3 amended: the fields `started_at`, `finished_at` and `latency_ms` all come
from the terminal attempt: the attempt `k` (0-based, `attempts = k + 1`)
that produced the terminal outcome supplies the start timestamp, the
finish timestamp, and the (non-cumulative) duration, for every kind of
outcome. `started_at` equals the first attempt's timestamp only when
the terminal attempt is the first. -/
theorem C3_terminal_attempt_timing (M : Nat) (p d : String) (i : Nat)
    (b : Nat → Attempt) :
    ∃ k, (executeWithRetries M p d i b).attempts = k + 1 ∧
      (executeWithRetries M p d i b).started_at = (b k).startTs ∧
      (executeWithRetries M p d i b).finished_at = (b k).finishTs ∧
      (executeWithRetries M p d i b).latency_ms
        = some (b k).durationMs := by
  obtain ⟨k, _, _, _, h4, _, _, h7, h8, h9, _, _⟩ :=
    executeWithRetries_spec M p d i b
  exact ⟨k, h4, h7, h8, h9⟩

/-- C6: a job whose provider raises a rate-limit failure on every
attempt, run under a configuration whose `max_retries` is `R`, yields a
single terminal measurement with `success = false`,
`error_type = "rate_limit"`, `attempts = R + 1` and `retry_count = R`. -/
theorem C6_rate_limit_exhausts_budget (cfg : EngineConfig) (eng : Engine)
    (hcfg : BenchmarkEngine.init cfg = .ok eng) (R : Nat)
    (hR : cfg.max_retries = (R : Int))
    (p d : String) (i : Nat) (b : Nat → Attempt)
    (hb : ∀ j, ∃ m, (b j).result = AttemptResult.rateLimit m) :
    (executeWithRetries eng.max_retries p d i b).success = false ∧
      (executeWithRetries eng.max_retries p d i b).error_type
        = some "rate_limit" ∧
      (executeWithRetries eng.max_retries p d i b).attempts = R + 1 ∧
      (executeWithRetries eng.max_retries p d i b).retry_count = R := by
  obtain ⟨_, _, _, _, hM, _⟩ := init_ok_fields cfg eng hcfg
  have hMR : eng.max_retries = R := by rw [hM, hR]; omega
  unfold executeWithRetries
  obtain ⟨h1, h2, h3, h4, _⟩ :=
    execAttempts_rateLimit_all eng.max_retries p d i b hb
      eng.max_retries 0 0 [] (by omega) (by omega)
  exact ⟨h1, h2, by omega, by omega⟩

/-- C6 witness: Scenario B of the spec — `max_retries = 2`, always rate-limited →
`success = false`, `error_type = "rate_limit"`, `attempts = 3`,
`retry_count = 2`. -/
theorem C6_rate_limit_exhausts_budget_witness :
    (executeWithRetries sampleEng.max_retries "p" "d" 1
          alwaysRateLimited).success = false ∧
      (executeWithRetries sampleEng.max_retries "p" "d" 1
          alwaysRateLimited).error_type = some "rate_limit" ∧
      (executeWithRetries sampleEng.max_retries "p" "d" 1
          alwaysRateLimited).attempts = 2 + 1 ∧
      (executeWithRetries sampleEng.max_retries "p" "d" 1
          alwaysRateLimited).retry_count = 2 :=
  C6_rate_limit_exhausts_budget sampleCfg sampleEng
    (by simp [BenchmarkEngine.init, sampleCfg, sampleEng]; norm_num)
    2 rfl "p" "d" 1 alwaysRateLimited (fun _ => ⟨"throttled", rfl⟩)

/-- C7: the method `_compute_backoff` with pre-increment retry count `r` returns
`min(backoff_max, backoff_base * 2^r)` plus — exactly when the jitter
field is nonzero — the rng draw (a uniform sample from `[0, jitter)`,
modelled by the hypotheses on `draw`); with zero jitter the delay is
non-decreasing in `r` and never exceeds `backoff_max`. -/
theorem C7_backoff_formula (base maxv jitter : ℚ) (r : Nat) (draw : ℚ)
    (hbase : 0 ≤ base) (hdraw : 0 ≤ draw)
    (hdj : jitter ≠ 0 → draw < jitter) :
    computeBackoff base maxv jitter r draw
        = min maxv (base * 2 ^ r) + (if jitter ≠ 0 then draw else 0) ∧
      (0 ≤ (if jitter ≠ 0 then draw else (0 : ℚ)) ∧
        (0 < jitter → (if jitter ≠ 0 then draw else (0 : ℚ)) < jitter)) ∧
      computeBackoff base maxv 0 r 0
        ≤ computeBackoff base maxv 0 (r + 1) 0 ∧
      computeBackoff base maxv 0 r 0 ≤ maxv := by
  have hz : ∀ s : Nat,
      computeBackoff base maxv 0 s 0 = min maxv (base * 2 ^ s) := by
    intro s; unfold computeBackoff; norm_num
  refine ⟨?_, ⟨?_, ?_⟩, ?_, ?_⟩
  · show (if jitter ≠ 0 then min maxv (base * 2 ^ r) + draw
        else min maxv (base * 2 ^ r))
      = min maxv (base * 2 ^ r) + (if jitter ≠ 0 then draw else 0)
    split
    · rfl
    · rw [add_zero]
  · split
    · exact hdraw
    · exact le_rfl
  · intro hj
    rw [if_pos (ne_of_gt hj)]
    exact hdj (ne_of_gt hj)
  · rw [hz r, hz (r + 1)]
    refine min_le_min le_rfl ?_
    have h2 : (2 : ℚ) ^ r ≤ 2 ^ (r + 1) :=
      pow_le_pow_right₀ (by norm_num) (Nat.le_succ r)
    exact mul_le_mul_of_nonneg_left h2 hbase
  · rw [hz r]
    exact min_le_left _ _

/-- C7 witness: concrete backoff values at `base = 1/10`, `max = 2`,
`jitter = 1/2`, `r = 1`, `draw = 1/4`. -/
theorem C7_backoff_formula_witness :
    computeBackoff (1/10) 2 (1/2) 1 (1/4)
        = min 2 ((1/10) * 2 ^ 1) + (if (1/2 : ℚ) ≠ 0 then 1/4 else 0) ∧
      (0 ≤ (if (1/2 : ℚ) ≠ 0 then (1/4 : ℚ) else 0) ∧
        (0 < (1/2 : ℚ) →
          (if (1/2 : ℚ) ≠ 0 then (1/4 : ℚ) else 0) < 1/2)) ∧
      computeBackoff (1/10) 2 0 1 0 ≤ computeBackoff (1/10) 2 0 (1 + 1) 0 ∧
      computeBackoff (1/10) 2 0 1 0 ≤ 2 :=
  C7_backoff_formula (1/10) 2 (1/2) 1 (1/4) (by norm_num) (by norm_num)
    (fun _ => by norm_num)

/-- C8: construction raises exactly when the provider or domain list is
empty (before any job runs), and the run itself converts every provider
failure into a measurement — one measurement per built job, with every
failed measurement carrying non-null error fields instead of an escaped
exception. -/
theorem C8_failures_contained :
    (∀ cfg : EngineConfig,
      (∃ e, BenchmarkEngine.init cfg = .error e) ↔
        cfg.providers = [] ∨ cfg.domains = []) ∧
    (∀ (eng : Engine)
        (shuffleP shuffleD : Nat → List String → List String)
        (behavior : Job → Nat → Attempt),
      (runInOrder eng shuffleP shuffleD behavior).length =
          (buildJobs eng.iterations eng.providers eng.domains
            shuffleP shuffleD).length ∧
        ∀ m ∈ runInOrder eng shuffleP shuffleD behavior,
          m.success = false →
            m.error_type.isSome = true ∧ m.error_message.isSome = true) := by
  constructor
  · intro cfg
    constructor
    · rintro ⟨e, he⟩
      by_contra hcon
      push_neg at hcon
      obtain ⟨hp, hd⟩ := hcon
      simp [BenchmarkEngine.init, List.isEmpty_iff, hp, hd] at he
    · intro h
      by_cases hp : cfg.providers = []
      · exact ⟨"At least one provider is required",
          by simp [BenchmarkEngine.init, List.isEmpty_iff, hp]⟩
      · rcases h with h | h
        · exact absurd h hp
        · exact ⟨"At least one domain is required",
          by simp [BenchmarkEngine.init, List.isEmpty_iff, hp, h]⟩
  · intro eng shuffleP shuffleD behavior
    refine ⟨by rw [runInOrder, List.length_map], ?_⟩
    intro m hm hfail
    rw [runInOrder, List.mem_map] at hm
    obtain ⟨j, hj, rfl⟩ := hm
    obtain ⟨k, _, _, _, _, _, _, _, _, _, h10, _⟩ :=
      executeWithRetries_spec eng.max_retries j.2.1 j.2.2 j.1 (behavior j)
    rcases h10 with ⟨hs, _⟩ | ⟨_, ⟨t, ht⟩, ⟨msg, hmsg⟩, _⟩
    · rw [hfail] at hs; cases hs
    · rw [ht, hmsg]; exact ⟨rfl, rfl⟩

/-- C8 witness: an empty provider list is rejected at construction, and
the always-timing-out sample run records its failures in the
measurements' error fields. -/
theorem C8_failures_contained_witness :
    (∃ e, BenchmarkEngine.init noProvidersCfg = .error e) ∧
      ∀ m ∈ runInOrder sampleEng idShuffle idShuffle (fun _ => timeoutFirst),
        m.success = false →
          m.error_type.isSome = true ∧ m.error_message.isSome = true :=
  ⟨(C8_failures_contained.1 noProvidersCfg).mpr (Or.inl rfl),
    (C8_failures_contained.2 sampleEng idShuffle idShuffle
      (fun _ => timeoutFirst)).2⟩
